import Mathlib

/-!
Verification development for the sales-agent message-processing core.

Python strings are modelled as `List Char`.  The helpers prefixed `py`
embed the Python string primitives used by the source
(`str.strip`, `str.split('\n')`, `str.replace(pat, '')`, `str.startswith`,
`str.isdigit` restricted to the ASCII decimal digits that occur in phone
input).  The external OpenAI / Twilio calls are modelled as function
parameters returning `Except`: `.ok` is a normal return, `.error` is a
raised exception, matching the `try/except` structure of the source.
-/

namespace SalesAgent

abbrev Str := List Char

/-- Characters removed by Python `str.strip()` (ASCII whitespace:
space, tab, newline, carriage return, vertical tab, form feed). -/
def pyIsSpace (c : Char) : Bool :=
  c = ' ' || c = '\t' || c = '\n' || c = '\r' || c = Char.ofNat 11 || c = Char.ofNat 12

/-- Python `s.strip()`: drop whitespace from both ends. -/
def pyStrip (s : Str) : Str :=
  ((s.dropWhile pyIsSpace).reverse.dropWhile pyIsSpace).reverse

/-- Python `s.split('\n')`: split on every newline, keeping empty pieces;
the empty string yields `[""]`. -/
def pySplitLines : Str → List Str
  | [] => [[]]
  | c :: cs =>
    if c = '\n' then [] :: pySplitLines cs
    else
      match pySplitLines cs with
      | [] => [[c]]
      | l :: ls => (c :: l) :: ls

/-- Fuel-driven worker for `pyReplaceDel`; the fuel is an upper bound on
the number of characters still to be scanned. -/
def pyReplaceDelGo (pat : Str) : Nat → Str → Str
  | 0, s => s
  | _ + 1, [] => []
  | fuel + 1, c :: cs =>
    if pat ≠ [] ∧ pat.isPrefixOf (c :: cs) then
      pyReplaceDelGo pat fuel (cs.drop (pat.length - 1))
    else
      c :: pyReplaceDelGo pat fuel cs

/-- Python `s.replace(pat, "")` for a non-empty pattern: delete every
(left-to-right, non-overlapping) occurrence of `pat` from `s`. -/
def pyReplaceDel (pat s : Str) : Str := pyReplaceDelGo pat s.length s

/-- Python `str.isdigit` restricted to the ASCII digits. -/
def pyIsDigit (c : Char) : Bool := c.isDigit

/-! ## Response Parser (`_parse_processing_response`) -/

def actionTag : Str := "ACTION:".toList

def messageTag : Str := "MESSAGE:".toList

/-- Initial action value of the line scan (`action = "respond"`). -/
def defaultParseAction : Str := "respond".toList

/-- Initial message value of the line scan (`message = "Thank you for
your message. I'll be happy to help you."`). -/
def defaultParseMessage : Str :=
  "Thank you for your message. I\x27ll be happy to help you.".toList

/-- One iteration of the `for line in lines` loop of
`_parse_processing_response`: `if line.startswith("ACTION:")` set the
action to `line.replace("ACTION:", "").strip()`, `elif` the same for
`MESSAGE:`, else leave the state unchanged. -/
def parse_step (st : Str × Str) (line : Str) : Str × Str :=
  if actionTag.isPrefixOf line then
    (pyStrip (pyReplaceDel actionTag line), st.2)
  else if messageTag.isPrefixOf line then
    (st.1, pyStrip (pyReplaceDel messageTag line))
  else st

/-- Embedding of `_parse_processing_response(response)`:
`lines = response.strip().split('\n')`, then the line scan starting from
the two defaults, returning `(action, message)`. -/
def parse_processing_response (response : Str) : Str × Str :=
  (pySplitLines (pyStrip response)).foldl parse_step
    (defaultParseAction, defaultParseMessage)

example :
    parse_processing_response ("ACTION: convert\nMESSAGE: ok".toList)
      = ("convert".toList, "ok".toList) := by decide

example :
    parse_processing_response ("hello".toList)
      = (defaultParseAction, defaultParseMessage) := by decide

example :
    parse_processing_response ("ACTION: a\nACTION: b".toList)
      = ("b".toList, defaultParseMessage) := by decide

example :
    (parse_processing_response ("ACTION: a ACTION: b".toList)).1
      = "a  b".toList := by decide

example :
    (parse_processing_response (" ACTION: x".toList)).1 = "x".toList := by
  decide

/-! ## Data model

The Python dicts read by `AIAgent` via `.get(key, default)` are modelled
as structures of `Option Str` fields (`none` = absent key).  Fields whose
values are nested dicts/lists (`lead_data`, `message_templates`,
`services`) hold the rendered (`repr`) form the f-string would embed. -/

structure LeadData where
  name : Option Str
  phone : Option Str
  email : Option Str
  status : Option Str
  lead_data_field : Option Str

structure CampaignData where
  name : Option Str
  description : Option Str
  message_templates : Option Str

/-- Fields `settings_industry` / `settings_services` model
`client_data.get('settings', {}).get('industry' / 'services', ...)`:
`none` covers both a missing `settings` dict and a missing inner key. -/
structure ClientData where
  name : Option Str
  settings_industry : Option Str
  settings_services : Option Str

/-- One conversation-history entry (`msg['direction']`, `msg['content']`). -/
structure Turn where
  direction : Str
  content : Str

/-- Python `d.get(key, default)` on a modelled optional field. -/
def pyGet (v : Option Str) (dflt : String) : Str := v.getD dflt.toList

/-! ## Prompt Builder -/

/-- Rendering `f"{msg['direction']}: {msg['content']}"`. -/
def renderTurn (t : Turn) : Str := t.direction ++ ": ".toList ++ t.content

/-- Python `"\n".join(...)`. -/
def joinLines : List Str → Str
  | [] => []
  | [l] => l
  | l :: ls => l ++ '\n' :: joinLines ls

/-- Python `conversation_history[-5:]` (the whole list when it has fewer
than 5 entries). -/
def pyLastFive (h : List Turn) : List Turn := h.drop (h.length - 5)

/-- The `history_text` value: the last-5 turns rendered one per line, as computed in
`_build_follow_up_prompt` and `_build_processing_prompt`. -/
def history_text (h : List Turn) : Str :=
  joinLines ((pyLastFive h).map renderTurn)

/-- Embedding of `_build_initial_prompt`. -/
def build_initial_prompt (lead : LeadData) (campaign : CampaignData)
    (client : ClientData) : Str :=
  "\n        Generate a personalized initial WhatsApp message for a sales lead.\n        \n        Lead Information:\n        - Name: ".toList
  ++ pyGet lead.name "Unknown"
  ++ "\n        - Phone: ".toList ++ pyGet lead.phone "Unknown"
  ++ "\n        - Email: ".toList ++ pyGet lead.email "Unknown"
  ++ "\n        - Additional Data: ".toList ++ pyGet lead.lead_data_field "\x7b\x7d"
  ++ "\n        \n        Campaign Information:\n        - Campaign Name: ".toList
  ++ pyGet campaign.name "Unknown"
  ++ "\n        - Description: ".toList ++ pyGet campaign.description "Unknown"
  ++ "\n        - Message Templates: ".toList ++ pyGet campaign.message_templates "\x7b\x7d"
  ++ "\n        \n        Client Information:\n        - Company Name: ".toList
  ++ pyGet client.name "Unknown"
  ++ "\n        - Industry: ".toList ++ pyGet client.settings_industry "Unknown"
  ++ "\n        - Services: ".toList ++ pyGet client.settings_services "[]"
  ++ "\n        \n        Requirements:\n        1. Keep the message under 160 characters\n        2. Make it personal and engaging\n        3. Include a clear call-to-action\n        4. Be professional but friendly\n        5. Mention the specific service/product they showed interest in\n        \n        Generate only the message content, no additional formatting.\n        ".toList

/-- Embedding of `_build_follow_up_prompt`. -/
def build_follow_up_prompt (lead : LeadData) (campaign : CampaignData)
    (client : ClientData) (conversation_history : List Turn) : Str :=
  "\n        Generate a follow-up WhatsApp message based on the conversation history.\n        \n        Lead Information:\n        - Name: ".toList
  ++ pyGet lead.name "Unknown"
  ++ "\n        - Current Status: ".toList ++ pyGet lead.status "Unknown"
  ++ "\n        \n        Conversation History:\n        ".toList
  ++ history_text conversation_history
  ++ "\n        \n        Campaign Information:\n        - Campaign: ".toList
  ++ pyGet campaign.name "Unknown"
  ++ "\n        - Templates: ".toList ++ pyGet campaign.message_templates "\x7b\x7d"
  ++ "\n        \n        Client Information:\n        - Company: ".toList
  ++ pyGet client.name "Unknown"
  ++ "\n        \n        Requirements:\n        1. Keep under 160 characters\n        2. Reference previous conversation\n        3. Provide value or new information\n        4. Include clear next steps\n        5. Be persistent but not pushy\n        \n        Generate only the message content.\n        ".toList

/-- Embedding of `_build_processing_prompt`. -/
def build_processing_prompt (message : Str) (lead : LeadData)
    (_campaign : CampaignData) (client : ClientData)
    (conversation_history : List Turn) : Str :=
  "\n        Analyze this incoming message and determine the appropriate response.\n        \n        Incoming Message: \"".toList
  ++ message
  ++ "\"\n        \n        Lead Information:\n        - Name: ".toList
  ++ pyGet lead.name "Unknown"
  ++ "\n        - Status: ".toList ++ pyGet lead.status "Unknown"
  ++ "\n        \n        Conversation History:\n        ".toList
  ++ history_text conversation_history
  ++ "\n        \n        Client Information:\n        - Company: ".toList
  ++ pyGet client.name "Unknown"
  ++ "\n        - Services: ".toList ++ pyGet client.settings_services "[]"
  ++ "\n        \n        Determine the appropriate action and response:\n        1. If they\x27re interested in buying - respond with conversion message\n        2. If they have questions - answer professionally\n        3. If they want to speak to someone - schedule a call\n        4. If they\x27re not interested - politely end conversation\n        5. If unclear - ask clarifying questions\n        \n        Respond in this format:\n        ACTION: [action_type]\n        MESSAGE: [response_message]\n        ".toList

/-- Embedding of `_get_system_prompt`. -/
def get_system_prompt : Str :=
  "\n        You are an AI sales agent for a digital marketing agency. Your role is to:\n        1. Generate personalized WhatsApp messages for sales leads\n        2. Be professional, friendly, and engaging\n        3. Focus on the specific service/product the lead showed interest in\n        4. Keep messages concise and actionable\n        5. Use the client\x27s brand voice and messaging guidelines\n        6. Always include a clear next step or call-to-action\n        ".toList

/-- Embedding of `_get_processing_system_prompt`. -/
def get_processing_system_prompt : Str :=
  "\n        You are an AI sales agent analyzing incoming messages. Your role is to:\n        1. Understand the lead\x27s intent and sentiment\n        2. Determine the appropriate response action\n        3. Generate relevant and helpful responses\n        4. Identify conversion opportunities\n        5. Handle objections professionally\n        6. Escalate to human when necessary\n        ".toList

/-! ## Conversation Decision Engine -/

/-- Embedding of `_get_fallback_message`. -/
def get_fallback_message (lead : LeadData) (client : ClientData) : Str :=
  "Hi ".toList ++ pyGet lead.name "there"
  ++ "! Thanks for your interest in ".toList ++ pyGet client.name "our company"
  ++ ". I\x27d love to tell you more about our services. When would be a good time to chat?".toList

/-- Embedding of `_get_fallback_follow_up` (its `client_data` argument is unused in the
source). -/
def get_fallback_follow_up (lead : LeadData) (_client : ClientData) : Str :=
  "Hi ".toList ++ pyGet lead.name "there"
  ++ "! Just following up on our previous conversation. Would you like to learn more about our services?".toList

/-- The generation backend (`openai.ChatCompletion.create` followed by
`response.choices[0].message.content`) as a function of the system prompt
and the user prompt; `.error` stands for any raised exception. -/
abbrev GenClient := Str → Str → Except Str Str

/-- Embedding of `generate_initial_message`: build the initial prompt, call the
generation backend; on success return the stripped content, on any
exception return the fallback message. -/
def generate_initial_message (gen : GenClient) (lead : LeadData)
    (campaign : CampaignData) (client : ClientData) : Str :=
  match gen get_system_prompt (build_initial_prompt lead campaign client) with
  | .ok content => pyStrip content
  | .error _ => get_fallback_message lead client

/-- Embedding of `generate_follow_up_message`. -/
def generate_follow_up_message (gen : GenClient) (lead : LeadData)
    (campaign : CampaignData) (client : ClientData)
    (conversation_history : List Turn) : Str :=
  match gen get_system_prompt
      (build_follow_up_prompt lead campaign client conversation_history) with
  | .ok content => pyStrip content
  | .error _ => get_fallback_follow_up lead client

/-- The `{action, message, confidence}` dict returned by
`process_incoming_message`.  The `float` literals 0.8 / 0.5 of the source
are modelled exactly as rationals. -/
structure DecisionResult where
  action : Str
  message : Str
  confidence : ℚ

/-- The fixed handoff text of the fallback branch of
`process_incoming_message`. -/
def fallbackHandoffMessage : Str :=
  "Thank you for your message. I\x27ll have someone from our team contact you shortly.".toList

/-- Embedding of `process_incoming_message`: build the processing prompt, call the
generation backend; on success strip the content, run the Response Parser
and return the pair with confidence 0.8; on any exception return the
fixed fallback result with confidence 0.5. -/
def process_incoming_message (gen : GenClient) (message : Str)
    (lead : LeadData) (campaign : CampaignData) (client : ClientData)
    (conversation_history : List Turn) : DecisionResult :=
  match gen get_processing_system_prompt
      (build_processing_prompt message lead campaign client conversation_history) with
  | .ok content =>
      let result := pyStrip content
      let p := parse_processing_response result
      { action := p.1, message := p.2, confidence := 0.8 }
  | .error _ =>
      { action := "respond".toList, message := fallbackHandoffMessage,
        confidence := 0.5 }

/-! ## WhatsApp service (`whatsapp_service.py`) -/

/-- The provider message object returned by `client.messages.create`. -/
structure TwilioMessage where
  sid : Str
  status : Str
  deriving DecidableEq

/-- The result dict of `send_message`.  The wall-clock `sent_at`
timestamp is outside the embedding. -/
structure SendResult where
  message_sid : Str
  status : Str
  to_number : Str
  metadata : Str
  deriving DecidableEq

/-- Model of `self.client.messages.create(...)` as a function of the message body
and the formatted destination number; `.error` is a raised
`TwilioException`. -/
abbrev CreateClient := Str → Str → Except Str TwilioMessage

/-- Embedding of `_format_phone_number`: keep only digit characters; when the cleaned
form does not start with `'1'` and has exactly 10 digits, prefix `'1'`. -/
def format_phone_number (phone_number : Str) : Str :=
  let cleaned := phone_number.filter pyIsDigit
  if ¬ ['1'].isPrefixOf cleaned ∧ cleaned.length = 10 then
    '1' :: cleaned
  else
    cleaned

/-- Embedding of `send_message`: format the number, call the provider, build the
result dict; a provider exception is re-raised (propagates as `.error`). -/
def send_message (create : CreateClient) (to_number message : Str)
    (metadata : Option Str) : Except Str SendResult :=
  let formatted := format_phone_number to_number
  match create message formatted with
  | .ok m =>
      .ok { message_sid := m.sid, status := m.status, to_number := formatted,
            metadata := metadata.getD "\x7b\x7d".toList }
  | .error e => .error e

/-- One entry of the `messages` argument of `send_bulk_messages`. -/
structure BulkMessageData where
  to_number : Str
  message : Str
  metadata : Option Str
  deriving DecidableEq

/-- One entry of the result list of `send_bulk_messages`. -/
structure BulkResult where
  success : Bool
  data : Option SendResult
  error : Option Str
  original_data : BulkMessageData
  deriving DecidableEq

/-- One iteration of the `for message_data in messages` loop of
`send_bulk_messages`: try the send and record either a success entry or a
failure entry for this item. -/
def bulk_send_item (create : CreateClient) (md : BulkMessageData) : BulkResult :=
  match send_message create md.to_number md.message md.metadata with
  | .ok r =>
      { success := true, data := some r, error := none, original_data := md }
  | .error e =>
      { success := false, data := none, error := some e, original_data := md }

/-- Embedding of `send_bulk_messages`: sequential per-item send, each failure captured
in its own result entry. -/
def send_bulk_messages (create : CreateClient)
    (messages : List BulkMessageData) : List BulkResult :=
  messages.map (bulk_send_item create)

/-- Returns `true` iff a modelled call returned normally instead of raising. -/
def exceptOk {ε α : Type} : Except ε α → Bool
  | .ok _ => true
  | .error _ => false

/-- Concrete provider for the bulk-send witness: raises exactly on the
message body `"b"`. -/
def bulkCreateExample : CreateClient := fun body _to =>
  if body = "b".toList then .error "boom".toList
  else .ok ⟨"SM1".toList, "queued".toList⟩

/-- Concrete three-message batch for the bulk-send witness. -/
def bulkMessagesExample : List BulkMessageData :=
  [⟨"2125551234".toList, "a".toList, none⟩,
   ⟨"2125551235".toList, "b".toList, none⟩,
   ⟨"2125551236".toList, "c".toList, none⟩]

/-! ## Lead State Machine -/

inductive LeadStatus where
  | new
  | contacted
  | responded
  | converted
  | lost
  deriving DecidableEq

inductive LeadEvent where
  | messageDispatched
  | inboundReceived
  | decisionAction (action : Str)

/-- Modelled from the spec: the Lead State Machine of spec section 4.5 is
not implemented under `src/` (only the status column with its five values
is declared in `app/core/database.py`), so its transition function is
taken from the spec's words: `new → contacted` when an outgoing message
is successfully dispatched, `contacted → responded` on receipt of an
inbound message, `responded` moves to `converted` on a conversion-type
action, to `lost` on a disengagement action, and stays `responded` for
ordinary back-and-forth; `converted` and `lost` are terminal, and any
pairing the spec does not name leaves the status unchanged. -/
def leadStep (s : LeadStatus) (e : LeadEvent) : LeadStatus :=
  match s, e with
  | .new, .messageDispatched => .contacted
  | .contacted, .inboundReceived => .responded
  | .responded, .decisionAction a =>
      if a = "convert".toList then .converted
      else if a = "lost".toList then .lost
      else .responded
  | s, _ => s

example : format_phone_number ("(555) 123-4567".toList) = "15551234567".toList := by
  decide

example : format_phone_number ("1234567890".toList) = "1234567890".toList := by
  decide

/-! ## Parser lemmas -/

/-- A line starting with `MESSAGE:` cannot start with `ACTION:` (the two
literals differ in their first character), so the `elif` of the line scan
never hides a `MESSAGE:` line behind the `ACTION:` branch. -/
lemma actionTag_isPrefixOf_eq_false_of_messageTag {l : Str}
    (h : messageTag.isPrefixOf l = true) :
    actionTag.isPrefixOf l = false := by
  cases l with
  | nil => simp [messageTag, List.isPrefixOf] at h
  | cons c cs =>
    simp only [messageTag, actionTag, List.isPrefixOf, Bool.and_eq_true,
      beq_iff_eq] at h ⊢
    rw [← h.1]
    have hne : ('A' == 'M') = false := by decide
    rw [hne, Bool.false_and]

/-- The action accumulated by the line scan is the value extracted from
the last line starting with `ACTION:`, or the initial action when no line
matches. -/
lemma foldl_parse_step_fst (ls : List Str) (st : Str × Str) :
    (ls.foldl parse_step st).1 =
      (((ls.filter fun l => actionTag.isPrefixOf l).getLast?.map
        fun l => pyStrip (pyReplaceDel actionTag l)).getD st.1) := by
  induction ls using List.reverseRecOn generalizing st with
  | nil => simp
  | append_singleton ls l ih =>
    rw [List.foldl_append, List.filter_append]
    by_cases hA : actionTag.isPrefixOf l = true
    · simp [List.filter_cons, hA, parse_step]
    · by_cases hM : messageTag.isPrefixOf l = true
      · simp [List.filter_cons, hA, hM, parse_step, ih]
      · simp [List.filter_cons, hA, hM, parse_step, ih]

/-- The message accumulated by the line scan is the value extracted from
the last line starting with `MESSAGE:` and not with `ACTION:`, or the
initial message when no line matches. -/
lemma foldl_parse_step_snd (ls : List Str) (st : Str × Str) :
    (ls.foldl parse_step st).2 =
      (((ls.filter fun l =>
            !(actionTag.isPrefixOf l) && messageTag.isPrefixOf l).getLast?.map
        fun l => pyStrip (pyReplaceDel messageTag l)).getD st.2) := by
  induction ls using List.reverseRecOn generalizing st with
  | nil => simp
  | append_singleton ls l ih =>
    rw [List.foldl_append, List.filter_append]
    by_cases hA : actionTag.isPrefixOf l = true
    · simp [List.filter_cons, hA, parse_step, ih]
    · by_cases hM : messageTag.isPrefixOf l = true
      · simp [List.filter_cons, hA, hM, parse_step]
      · simp [List.filter_cons, hA, hM, parse_step, ih]

/-- For the `MESSAGE:` component the `elif` guard can be dropped: the two
filters coincide. -/
lemma filter_messageTag_eq (ls : List Str) :
    (ls.filter fun l => !(actionTag.isPrefixOf l) && messageTag.isPrefixOf l)
      = ls.filter fun l => messageTag.isPrefixOf l := by
  apply List.filter_congr
  intro l _
  by_cases hM : messageTag.isPrefixOf l = true
  · rw [hM, actionTag_isPrefixOf_eq_false_of_messageTag hM]
    rfl
  · rw [Bool.not_eq_true] at hM
    rw [hM, Bool.and_false]

/-- C1 (amended): for every input string, `_parse_processing_response`
strips the whole input, splits it into lines, and returns as action the
last line starting with `ACTION:` with every occurrence of `ACTION:`
deleted and the result trimmed (defaulting to `"respond"` when no such
line exists), and as message the analogous value for `MESSAGE:` lines
(defaulting to the fixed acknowledgment string); it is a total function,
so it never raises. -/
theorem parse_processing_response_spec (s : Str) :
    parse_processing_response s =
      ((((pySplitLines (pyStrip s)).filter fun l =>
            actionTag.isPrefixOf l).getLast?.map
          fun l => pyStrip (pyReplaceDel actionTag l)).getD defaultParseAction,
       (((pySplitLines (pyStrip s)).filter fun l =>
            messageTag.isPrefixOf l).getLast?.map
          fun l => pyStrip (pyReplaceDel messageTag l)).getD defaultParseMessage) := by
  have h1 := foldl_parse_step_fst (pySplitLines (pyStrip s))
    (defaultParseAction, defaultParseMessage)
  have h2 := foldl_parse_step_snd (pySplitLines (pyStrip s))
    (defaultParseAction, defaultParseMessage)
  rw [filter_messageTag_eq] at h2
  exact Prod.ext h1 h2

/-- C1 counterexample: on the single-line input `"ACTION: a ACTION: b"`
the claim's "trimmed remainder of the line" is `"a ACTION: b"`, but the
source deletes every occurrence of `"ACTION:"` from the line
(`line.replace("ACTION:", "")`), producing `"a  b"`. -/
theorem parse_processing_response_remainder_counterexample :
    (parse_processing_response ("ACTION: a ACTION: b".toList)).1 = "a  b".toList
    ∧ (parse_processing_response ("ACTION: a ACTION: b".toList)).1
        ≠ "a ACTION: b".toList := by
  decide

/-- C2: when the scanned lines contain two or more `ACTION:` lines (or
two or more `MESSAGE:` lines), the parser returns the value extracted
from the last such line: a later matching line overwrites the value of an
earlier one. -/
theorem parse_processing_response_last_wins (s : Str) :
    (∀ l, 2 ≤ ((pySplitLines (pyStrip s)).countP fun x => actionTag.isPrefixOf x) →
      ((pySplitLines (pyStrip s)).filter fun x => actionTag.isPrefixOf x).getLast?
          = some l →
      (parse_processing_response s).1 = pyStrip (pyReplaceDel actionTag l))
    ∧ (∀ l, 2 ≤ ((pySplitLines (pyStrip s)).countP fun x => messageTag.isPrefixOf x) →
      ((pySplitLines (pyStrip s)).filter fun x => messageTag.isPrefixOf x).getLast?
          = some l →
      (parse_processing_response s).2 = pyStrip (pyReplaceDel messageTag l)) := by
  constructor
  · intro l _ hlast
    have h1 := foldl_parse_step_fst (pySplitLines (pyStrip s))
      (defaultParseAction, defaultParseMessage)
    rw [hlast] at h1
    exact h1
  · intro l _ hlast
    have h2 := foldl_parse_step_snd (pySplitLines (pyStrip s))
      (defaultParseAction, defaultParseMessage)
    rw [filter_messageTag_eq, hlast] at h2
    exact h2

/-- C2 witness: on a concrete input with two `ACTION:` lines and two
`MESSAGE:` lines, the last ones win. -/
theorem parse_processing_response_last_wins_witness :
    (parse_processing_response ("ACTION: a\nMESSAGE: m\nACTION: b\nMESSAGE: n".toList)).1
        = "b".toList
    ∧ (parse_processing_response ("ACTION: a\nMESSAGE: m\nACTION: b\nMESSAGE: n".toList)).2
        = "n".toList := by
  constructor
  · exact ((parse_processing_response_last_wins
      ("ACTION: a\nMESSAGE: m\nACTION: b\nMESSAGE: n".toList)).1
      ("ACTION: b".toList) (by decide) (by decide)).trans (by decide)
  · exact ((parse_processing_response_last_wins
      ("ACTION: a\nMESSAGE: m\nACTION: b\nMESSAGE: n".toList)).2
      ("MESSAGE: n".toList) (by decide) (by decide)).trans (by decide)

/-! ## Decision Engine theorems -/

/-- C3: whenever the generation call inside `process_incoming_message`
fails, the returned result is exactly `{action: "respond", message:
"Thank you for your message. I'll have someone from our team contact you
shortly.", confidence: 0.5}`, regardless of the inbound message and of
the lead/campaign/client/history inputs. -/
theorem process_incoming_message_fallback (gen : GenClient) (message : Str)
    (lead : LeadData) (campaign : CampaignData) (client : ClientData)
    (history : List Turn) (e : Str)
    (h : gen get_processing_system_prompt
        (build_processing_prompt message lead campaign client history) = .error e) :
    process_incoming_message gen message lead campaign client history =
      { action := "respond".toList,
        message :=
          "Thank you for your message. I\x27ll have someone from our team contact you shortly.".toList,
        confidence := 0.5 } := by
  unfold process_incoming_message
  rw [h]
  rfl

/-- C3 witness: a concrete always-failing generation backend yields the
fixed fallback decision result. -/
theorem process_incoming_message_fallback_witness :
    process_incoming_message (fun _ _ => .error []) "Can I buy now?".toList
      ⟨none, none, none, none, none⟩ ⟨none, none, none⟩ ⟨none, none, none⟩ [] =
      { action := "respond".toList,
        message :=
          "Thank you for your message. I\x27ll have someone from our team contact you shortly.".toList,
        confidence := 0.5 } :=
  process_incoming_message_fallback _ _ _ _ _ _ [] rfl

/-- C4: the confidence of every `process_incoming_message` result lies in
[0,1] and is exactly 0.8 on the successful-generation branch and exactly
0.5 on the fallback branch; no other value occurs. -/
theorem process_incoming_message_confidence (gen : GenClient) (message : Str)
    (lead : LeadData) (campaign : CampaignData) (client : ClientData)
    (history : List Turn) :
    (0 ≤ (process_incoming_message gen message lead campaign client history).confidence
      ∧ (process_incoming_message gen message lead campaign client history).confidence ≤ 1)
    ∧ ((process_incoming_message gen message lead campaign client history).confidence = 0.8
      ∨ (process_incoming_message gen message lead campaign client history).confidence = 0.5)
    ∧ (∀ t, gen get_processing_system_prompt
          (build_processing_prompt message lead campaign client history) = .ok t →
        (process_incoming_message gen message lead campaign client history).confidence = 0.8)
    ∧ (∀ e, gen get_processing_system_prompt
          (build_processing_prompt message lead campaign client history) = .error e →
        (process_incoming_message gen message lead campaign client history).confidence = 0.5) := by
  unfold process_incoming_message
  cases hg : gen get_processing_system_prompt
      (build_processing_prompt message lead campaign client history) with
  | ok t =>
    refine ⟨⟨by norm_num, by norm_num⟩, Or.inl rfl, fun t' _ => rfl, ?_⟩
    intro e' he
    exact absurd he (by simp)
  | error e =>
    refine ⟨⟨by norm_num, by norm_num⟩, Or.inr rfl, ?_, fun e' _ => rfl⟩
    intro t' ht
    exact absurd ht (by simp)

/-- C4 witness: the two branches realized at concrete inputs. -/
theorem process_incoming_message_confidence_witness :
    (process_incoming_message (fun _ _ => .ok "ACTION: convert".toList) []
      ⟨none, none, none, none, none⟩ ⟨none, none, none⟩ ⟨none, none, none⟩ []).confidence
        = 0.8
    ∧ (process_incoming_message (fun _ _ => .error []) []
      ⟨none, none, none, none, none⟩ ⟨none, none, none⟩ ⟨none, none, none⟩ []).confidence
        = 0.5 :=
  ⟨(process_incoming_message_confidence _ _ _ _ _ _).2.2.1
      ("ACTION: convert".toList) rfl,
   (process_incoming_message_confidence _ _ _ _ _ _).2.2.2 [] rfl⟩

/-- C5: whenever the generation call inside `generate_initial_message`
fails, the returned string is the fixed template instantiated with the
lead's name (default `"there"`) and the client's name (default
`"our company"`); in particular lead `"Sam"` and client `"Acme"` give the
exact string of the spec. -/
theorem generate_initial_message_fallback (gen : GenClient) (lead : LeadData)
    (campaign : CampaignData) (client : ClientData) (e : Str)
    (h : gen get_system_prompt (build_initial_prompt lead campaign client) = .error e) :
    generate_initial_message gen lead campaign client =
      "Hi ".toList ++ lead.name.getD "there".toList
      ++ "! Thanks for your interest in ".toList
      ++ client.name.getD "our company".toList
      ++ ". I\x27d love to tell you more about our services. When would be a good time to chat?".toList
    ∧ (lead.name = some "Sam".toList → client.name = some "Acme".toList →
        generate_initial_message gen lead campaign client =
          "Hi Sam! Thanks for your interest in Acme. I\x27d love to tell you more about our services. When would be a good time to chat?".toList) := by
  have hmain : generate_initial_message gen lead campaign client =
      get_fallback_message lead client := by
    unfold generate_initial_message
    rw [h]
  constructor
  · rw [hmain]
    rfl
  · intro hn hc
    rw [hmain]
    unfold get_fallback_message pyGet
    rw [hn, hc]
    decide

/-- C5 witness: the concrete Sam/Acme instance under an always-failing
generation backend. -/
theorem generate_initial_message_fallback_witness :
    generate_initial_message (fun _ _ => .error [])
      ⟨some "Sam".toList, none, none, none, none⟩ ⟨none, none, none⟩
      ⟨some "Acme".toList, none, none⟩ =
      "Hi Sam! Thanks for your interest in Acme. I\x27d love to tell you more about our services. When would be a good time to chat?".toList := by
  have h := generate_initial_message_fallback (fun _ _ => .error ([] : Str))
    ⟨some "Sam".toList, none, none, none, none⟩ ⟨none, none, none⟩
    ⟨some "Acme".toList, none, none⟩ [] rfl
  exact h.2 rfl rfl

/-! ## Prompt Builder theorems -/

/-- Dropping to the last five turns is idempotent, so the prompt builders
depend on the history only through its last five turns. -/
lemma pyLastFive_idem (h : List Turn) : pyLastFive (pyLastFive h) = pyLastFive h := by
  unfold pyLastFive
  rw [List.length_drop]
  have hz : h.length - (h.length - 5) - 5 = 0 := by omega
  rw [hz, List.drop_zero]

/-- C6: the follow-up and processing prompt builders render at most the
five most-recent turns — the built prompt is unchanged when the history
is pre-truncated to `history[-5:]` — and on a history of exactly eight
turns the rendered history block consists of exactly the last five turns,
in chronological order, each as a `"<direction>: <content>"` line. -/
theorem prompt_builders_history_truncation (lead : LeadData)
    (campaign : CampaignData) (client : ClientData) (message : Str)
    (h : List Turn) (t0 t1 t2 t3 t4 t5 t6 t7 : Turn) :
    build_follow_up_prompt lead campaign client h
      = build_follow_up_prompt lead campaign client (pyLastFive h)
    ∧ build_processing_prompt message lead campaign client h
      = build_processing_prompt message lead campaign client (pyLastFive h)
    ∧ history_text [t0, t1, t2, t3, t4, t5, t6, t7]
      = joinLines ([t3, t4, t5, t6, t7].map renderTurn) := by
  refine ⟨?_, ?_, ?_⟩
  · unfold build_follow_up_prompt history_text
    rw [pyLastFive_idem]
  · unfold build_processing_prompt history_text
    rw [pyLastFive_idem]
  · rfl

/-! ## Lead State Machine theorems -/

/-- C7: the statuses `converted` and `lost` are terminal: no sequence of
subsequent automated events — in particular no `process_incoming_message`
decision action — moves a lead out of them. -/
theorem lead_terminal_states_absorb (events : List LeadEvent) :
    events.foldl leadStep .converted = .converted
    ∧ events.foldl leadStep .lost = .lost := by
  induction events with
  | nil => exact ⟨rfl, rfl⟩
  | cons e es ih =>
    have hc : leadStep .converted e = .converted := by cases e <;> rfl
    have hl : leadStep .lost e = .lost := by cases e <;> rfl
    simpa [hc, hl] using ih

/-! ## WhatsApp service theorems -/

/-- C8 counterexample: the input `"1234567890"` reduces to exactly 10
digits, yet the source returns it unchanged (10 digits, no `'1'`
prefixed), because the prefixing branch also requires the cleaned number
not to start with `'1'`. -/
theorem format_phone_number_ten_digit_counterexample :
    format_phone_number ("1234567890".toList) = "1234567890".toList
    ∧ (format_phone_number ("1234567890".toList)).length = 10
    ∧ format_phone_number ("1234567890".toList) ≠ '1' :: "1234567890".toList := by
  decide

/-- C8 (amended): `_format_phone_number` returns only digit characters:
it returns the digit characters of the input in order, prefixed by a
single `'1'` exactly when the digits-only form has exactly 10 digits and
does not already start with `'1'` (yielding an 11-digit result); in every
other case the digits-only form is returned unchanged. -/
theorem format_phone_number_spec (s : Str) :
    (∀ c ∈ format_phone_number s, pyIsDigit c = true)
    ∧ (format_phone_number s = s.filter pyIsDigit
        ∨ format_phone_number s = '1' :: s.filter pyIsDigit)
    ∧ ((s.filter pyIsDigit).length = 10 →
        ['1'].isPrefixOf (s.filter pyIsDigit) = false →
        format_phone_number s = '1' :: s.filter pyIsDigit
        ∧ (format_phone_number s).length = 11)
    ∧ ((s.filter pyIsDigit).length ≠ 10 ∨ ['1'].isPrefixOf (s.filter pyIsDigit) = true →
        format_phone_number s = s.filter pyIsDigit) := by
  have hdig : ∀ c ∈ s.filter pyIsDigit, pyIsDigit c = true :=
    fun c hc => List.of_mem_filter hc
  by_cases hcond : ¬ ['1'].isPrefixOf (s.filter pyIsDigit)
      ∧ (s.filter pyIsDigit).length = 10
  · have hfmt : format_phone_number s = '1' :: s.filter pyIsDigit := by
      unfold format_phone_number
      rw [if_pos hcond]
    refine ⟨?_, Or.inr hfmt,
      fun _ _ => ⟨hfmt, by rw [hfmt]; simp [hcond.2]⟩, ?_⟩
    · intro c hc
      rw [hfmt] at hc
      rcases List.mem_cons.mp hc with h1 | h2
      · rw [h1]; decide
      · exact hdig c h2
    · intro hor
      rcases hor with hne | hpre
      · exact absurd hcond.2 hne
      · exact absurd hpre hcond.1
  · have hfmt : format_phone_number s = s.filter pyIsDigit := by
      unfold format_phone_number
      rw [if_neg hcond]
    refine ⟨?_, Or.inl hfmt, ?_, fun _ => hfmt⟩
    · intro c hc
      rw [hfmt] at hc
      exact hdig c hc
    · intro hlen hpre
      have hno : ¬ ['1'].isPrefixOf (s.filter pyIsDigit) = true := by
        rw [hpre]; simp
      exact absurd ⟨hno, hlen⟩ hcond

/-- C8 witness: a formatted 10-digit number not starting with `'1'` gets
the domestic prefix. -/
theorem format_phone_number_spec_witness :
    format_phone_number ("(555) 123-4567".toList) = '1' :: "5551234567".toList
    ∧ (format_phone_number ("(555) 123-4567".toList)).length = 11 := by
  have h := (format_phone_number_spec ("(555) 123-4567".toList)).2.2.1
    (by decide) (by decide)
  exact ⟨h.1.trans (by decide), h.2⟩

/-- C10: `_format_phone_number` is idempotent: a second application
leaves the result of the first unchanged. -/
theorem format_phone_number_idempotent (s : Str) :
    format_phone_number (format_phone_number s) = format_phone_number s := by
  have hdig : ∀ c ∈ s.filter pyIsDigit, pyIsDigit c = true :=
    fun c hc => List.of_mem_filter hc
  have hself : (s.filter pyIsDigit).filter pyIsDigit = s.filter pyIsDigit :=
    List.filter_eq_self.mpr hdig
  by_cases hcond : ¬ ['1'].isPrefixOf (s.filter pyIsDigit)
      ∧ (s.filter pyIsDigit).length = 10
  · have hstep : format_phone_number s = '1' :: s.filter pyIsDigit := by
      unfold format_phone_number
      rw [if_pos hcond]
    rw [hstep]
    unfold format_phone_number
    have h1 : ('1' :: s.filter pyIsDigit).filter pyIsDigit
        = '1' :: s.filter pyIsDigit := by
      rw [List.filter_cons_of_pos (by decide), hself]
    rw [h1, if_neg]
    intro hcontra
    exact hcontra.1 (by simp [List.isPrefixOf])
  · have hstep : format_phone_number s = s.filter pyIsDigit := by
      unfold format_phone_number
      rw [if_neg hcond]
    rw [hstep]
    unfold format_phone_number
    rw [hself, if_neg hcond]

/-- C9: when the per-item send inside `send_bulk_messages` fails for
exactly one index `k`, the result list has the length of the input,
preserves the input order (each entry carries its original message data),
and marks exactly the entry at position `k` as failed. -/
theorem send_bulk_messages_isolated_failure (create : CreateClient)
    (messages : List BulkMessageData) (k : Nat)
    (_hk : k < messages.length)
    (hfail : ∀ i, i < messages.length → ∀ md, messages.get? i = some md →
      (exceptOk (send_message create md.to_number md.message md.metadata) = false
        ↔ i = k)) :
    (send_bulk_messages create messages).length = messages.length
    ∧ ∀ i r md, (send_bulk_messages create messages).get? i = some r →
        messages.get? i = some md →
        ((r.success = false ↔ i = k) ∧ r.original_data = md) := by
  constructor
  · simp [send_bulk_messages]
  · intro i r md hr hmd
    have hi : i < messages.length := by
      by_contra hcon
      push_neg at hcon
      rw [List.get?_eq_none.mpr hcon] at hmd
      cases hmd
    have hspec := hfail i hi md hmd
    unfold send_bulk_messages at hr
    rw [List.get?_map, hmd] at hr
    simp only [Option.map_some'] at hr
    cases hs : send_message create md.to_number md.message md.metadata with
    | ok v =>
      rw [hs] at hspec
      simp only [exceptOk] at hspec
      have hitem : bulk_send_item create md =
          { success := true, data := some v, error := none, original_data := md } := by
        unfold bulk_send_item
        rw [hs]
      rw [hitem] at hr
      injection hr with hr
      subst hr
      have hik : ¬ i = k := fun h => absurd (hspec.mpr h) (by decide)
      exact ⟨by simp [hik], rfl⟩
    | error err =>
      rw [hs] at hspec
      simp only [exceptOk] at hspec
      have hitem : bulk_send_item create md =
          { success := false, data := none, error := some err, original_data := md } := by
        unfold bulk_send_item
        rw [hs]
      rw [hitem] at hr
      injection hr with hr
      subst hr
      have hik : i = k := hspec.mp trivial
      exact ⟨by simp [hik], rfl⟩

/-- C9 witness: a three-message batch whose middle item fails: length
preserved, the middle entry failed and carries its original data. -/
theorem send_bulk_messages_isolated_failure_witness :
    (send_bulk_messages bulkCreateExample bulkMessagesExample).length
        = bulkMessagesExample.length
    ∧ (((⟨false, none, some "boom".toList,
          ⟨"2125551235".toList, "b".toList, none⟩⟩ : BulkResult).success = false
        ↔ (1 : Nat) = 1)
      ∧ (⟨false, none, some "boom".toList,
          ⟨"2125551235".toList, "b".toList, none⟩⟩ : BulkResult).original_data
        = ⟨"2125551235".toList, "b".toList, none⟩) := by
  have h := send_bulk_messages_isolated_failure bulkCreateExample
    bulkMessagesExample 1 (by decide) ?hfail
  · exact ⟨h.1, h.2 1
      ⟨false, none, some "boom".toList, ⟨"2125551235".toList, "b".toList, none⟩⟩
      ⟨"2125551235".toList, "b".toList, none⟩ (by decide) (by decide)⟩
  case hfail =>
    intro i hi md hmd
    have hi3 : i < 3 := by simpa [bulkMessagesExample] using hi
    interval_cases i <;>
      (simp only [bulkMessagesExample, List.get?] at hmd;
        injection hmd with hmd; subst hmd; decide)

end SalesAgent
